import Mathlib

/-!
Shallow embedding of the socket/state-machine layer of the `rt-esp-at-nal`
driver (sources: `src/stack.rs`, `src/adapter.rs`).

The driver owns a pool of 5 socket slots, reconciles asynchronous URC
notifications into that state, and implements open/connect/send/receive/close
on top of an AT command transport.  The transport, the timer and the module
itself are external collaborators; each operation below therefore takes the
module's behaviour (command results, pending URC messages per reconciliation
point, timer poll outcomes) as explicit arguments and returns the operation's
result, the successor adapter state, and the list of commands issued.

The snapshot of `adapter.rs` under `src/` predates `stack.rs`: `stack.rs`
reads `self.data_available`, `self.already_connected` and `self.data`, which
that `adapter.rs` neither declares nor updates.  Those three fields and the
URC variants feeding them are modelled from the spec (each marked
`Modelled from the spec:`); everything else is translated from the source.
-/

namespace EspAtNal

/-- Internal connection state of one socket slot (`SocketState` in `stack.rs`). -/
inductive SocketState where
  | Closed
  | Open
  | Connected
  | Closing
deriving DecidableEq, Repr

/-- The subset of `atat::Error` values the stack mentions. -/
inductive AtError where
  | Error
  | Timeout
  | InvalidResponse
deriving DecidableEq, Repr

/-- Network errors (`Error` in `stack.rs`). -/
inductive Error where
  | EnablingMultiConnectionsFailed (e : AtError)
  | EnablingPassiveSocketModeFailed (e : AtError)
  | ConnectError (e : AtError)
  | TransmissionStartFailed (e : AtError)
  | SendFailed (e : AtError)
  | ReceiveFailed (e : AtError)
  | CloseError (e : AtError)
  | PartialSend
  | UnconfirmedSocketState
  | NoSocketAvailable
  | AlreadyConnected
  | SocketUnconnected
  | ClosingSocket
  | ReceiveOverflow
  | UnexpectedWouldBlock
  | TimerError
deriving DecidableEq, Repr

/-- Errors when joining an access point (`JoinError` in `adapter.rs`). -/
inductive JoinError where
  | ConfigurationStoreError (e : AtError)
  | ModeError (e : AtError)
  | ConnectError (e : AtError)
  | InvalidSSDLength
  | InvalidPasswordLength
  | UnexpectedWouldBlock
deriving DecidableEq, Repr

/-- Current WIFI connection state (`JoinState` in `adapter.rs`). -/
structure JoinState where
  connected : Bool
  ip_assigned : Bool
deriving DecidableEq, Repr

/-- URC notifications (`URCMessages` handled in `adapter.rs`).  The variants
up to `Unknown` are the ones the `src/` snapshot of `handle_single_urc`
matches.  `DataAvailable`, `AlreadyConnectedSignal` and `DataReceived` are the
variants `stack.rs` depends on but whose handling is absent from `src/`:

* `DataAvailable` — Modelled from the spec: "bytes received(link, n) ->
  slot[link].bytes_available += n".
* `AlreadyConnectedSignal` — Modelled from the spec: the transient
  last-connect-collision flag "observing whether the module reported
  'already connected' for a connect attempt".
* `DataReceived` — Modelled from the spec: the receive path issues a
  "receive data" command, reconciles, and then reads the returned bytes
  ("if the module failed to return data treat it as a receive failure;
  otherwise append the returned bytes"). -/
inductive URCMessages where
  | WifiDisconnected
  | ReceivedIP
  | WifiConnected
  | Ready
  | SocketConnected (link : Fin 5)
  | SocketClosed (link : Fin 5)
  | ReceivedBytes (count : Nat)
  | SendConfirmation
  | SendFail
  | Unknown
  | DataAvailable (link : Fin 5) (n : Nat)
  | AlreadyConnectedSignal
  | DataReceived (bytes : List Nat)
deriving DecidableEq, Repr

/-- Commands issued to the module, recorded so theorems can speak about which
commands an operation sent (wire formats live in the out-of-scope
`commands.rs`; only the command identity matters here). -/
inductive Cmd where
  | SetMultipleConnections
  | SetSocketReceivingMode
  | WifiMode
  | AccessPointConnect
  | Connect (link : Fin 5)
  | TransmissionPrepare (link : Fin 5) (len : Nat)
  | Transmission (data : List Nat)
  | ReceiveData (link : Fin 5) (len : Nat)
  | CloseSocket (link : Fin 5)
deriving DecidableEq, Repr

/-- Outcome of one `timer.wait()` poll (`fugit_timer::Timer`). -/
inductive TimerWait where
  | elapsed
  | wouldBlock
  | failed
deriving DecidableEq, Repr

/-- An `nb::Result`-shaped outcome: success, hard error, or would-block. -/
inductive NbResult (ε α : Type) where
  | ok (a : α)
  | err (e : ε)
  | wouldBlock
deriving DecidableEq, Repr

/-- The adapter's state (`Adapter` fields in `adapter.rs`).  `data_available`,
`already_connected` and `data` are referenced by `stack.rs` but missing from
the `src/` snapshot of `adapter.rs`; they are modelled from the spec
(per-slot receive-byte counters, the last-connect-collision flag, and the
buffered chunk handed back by a receive-data command). -/
structure AdapterState where
  joined : Bool
  ip_assigned : Bool
  multi_connections_enabled : Bool
  passive_mode_enabled : Bool
  sockets : Fin 5 → SocketState
  recv_byte_count : Option Nat
  send_confirmed : Option Bool
  data_available : Fin 5 → Nat
  already_connected : Bool
  data : Option (List Nat)

/-- Result of one public operation: its return value, the successor adapter
state, and the commands issued to the module during the call. -/
structure OpResult (α : Type) where
  result : α
  state : AdapterState
  cmds : List Cmd

/-- Pointwise update of the slot-state array at one index. -/
def setSlot (f : Fin 5 → SocketState) (i : Fin 5) (v : SocketState) : Fin 5 → SocketState :=
  fun j => if j = i then v else f j

/-- Effect of a single URC message on the adapter state
(`handle_single_urc` in `adapter.rs`; the `DataAvailable`,
`AlreadyConnectedSignal` and `DataReceived` arms are modelled from the spec,
see `URCMessages`). -/
def handle_single_urc (st : AdapterState) (msg : URCMessages) : AdapterState :=
  match msg with
  | URCMessages.WifiDisconnected => { st with joined := false, ip_assigned := false }
  | URCMessages.ReceivedIP => { st with ip_assigned := true }
  | URCMessages.WifiConnected => { st with joined := true }
  | URCMessages.Ready => st
  | URCMessages.SocketConnected link => { st with sockets := setSlot st.sockets link SocketState.Connected }
  | URCMessages.SocketClosed link => { st with sockets := setSlot st.sockets link SocketState.Closing }
  | URCMessages.ReceivedBytes count => { st with recv_byte_count := some count }
  | URCMessages.SendConfirmation => { st with send_confirmed := some true }
  | URCMessages.SendFail => { st with send_confirmed := some false }
  | URCMessages.Unknown => st
  | URCMessages.DataAvailable link n =>
      { st with data_available := fun j => if j = link then st.data_available j + n else st.data_available j }
  | URCMessages.AlreadyConnectedSignal => { st with already_connected := true }
  | URCMessages.DataReceived bytes => { st with data := some bytes }

/-- Drains all pending URC messages (`process_urc_messages` in `adapter.rs`).
The trailing best-effort `check_response` house-keeping call has no effect on
the modelled state and issues no command via `send`. -/
def process_urc_messages (msgs : List URCMessages) (st : AdapterState) : AdapterState :=
  msgs.foldl handle_single_urc st

/-- Fresh adapter (`Adapter::new`); the three spec-modelled fields start at
zero / cleared, matching "all slots start Closed" with no backlog. -/
def initState : AdapterState :=
  { joined := false
    ip_assigned := false
    multi_connections_enabled := false
    passive_mode_enabled := false
    sockets := fun _ => SocketState.Closed
    recv_byte_count := none
    send_confirmed := none
    data_available := fun _ => 0
    already_connected := false
    data := none }

/-- Model of `enable_multiple_connections` in `stack.rs`: sticky flag, command sent at
most once.  `r` is the module's reply to the CIPMUX command (the call-site
error wrapping lives in the out-of-scope `commands.rs`). -/
def enable_multiple_connections (st : AdapterState) (r : Except AtError Unit) :
    Except Error Unit × AdapterState × List Cmd :=
  if st.multi_connections_enabled then (Except.ok (), st, [])
  else
    match r with
    | Except.error e => (Except.error (Error.EnablingMultiConnectionsFailed e), st, [Cmd.SetMultipleConnections])
    | Except.ok _ => (Except.ok (), { st with multi_connections_enabled := true }, [Cmd.SetMultipleConnections])

/-- Model of `enable_passive_receiving_mode` in `stack.rs`: sticky flag, command sent
at most once. -/
def enable_passive_receiving_mode (st : AdapterState) (r : Except AtError Unit) :
    Except Error Unit × AdapterState × List Cmd :=
  if st.passive_mode_enabled then (Except.ok (), st, [])
  else
    match r with
    | Except.error e => (Except.error (Error.EnablingPassiveSocketModeFailed e), st, [Cmd.SetSocketReceivingMode])
    | Except.ok _ => (Except.ok (), { st with passive_mode_enabled := true }, [Cmd.SetSocketReceivingMode])

/-- Model of `self.sockets.iter().position(|state| state == &SocketState::Closed)`
over the 5-element slot array, in index order. -/
def firstClosed (s : Fin 5 → SocketState) : Option (Fin 5) :=
  if s 0 = SocketState.Closed then some 0
  else if s 1 = SocketState.Closed then some 1
  else if s 2 = SocketState.Closed then some 2
  else if s 3 = SocketState.Closed then some 3
  else if s 4 = SocketState.Closed then some 4
  else none

/-- Model of `open_socket` in `stack.rs`: first `Closed` slot becomes `Open` and its
`link_id` is returned; otherwise `NoSocketAvailable`. -/
def open_socket (st : AdapterState) : Except Error (Fin 5) × AdapterState :=
  match firstClosed st.sockets with
  | some link => (Except.ok link, { st with sockets := setSlot st.sockets link SocketState.Open })
  | none => (Except.error Error.NoSocketAvailable, st)

/-- Model of `socket()` in `stack.rs` (`TcpClientStack::socket`):
`enable_multiple_connections()?` then `open_socket()`. -/
def socket (st : AdapterState) (cipmuxResult : Except AtError Unit) :
    OpResult (Except Error (Fin 5)) :=
  match enable_multiple_connections st cipmuxResult with
  | (Except.error e, st1, cmds) => ⟨Except.error e, st1, cmds⟩
  | (Except.ok _, st1, cmds) =>
    match open_socket st1 with
    | (r, st2) => ⟨r, st2, cmds⟩

/-- Model of `close()` in `stack.rs`.  `urc1`/`urc2` are the URC messages pending at
the two reconciliation points, `cmdResult` the module's reply to the
CIPCLOSE command (wrapped as `CloseError` at this call site). -/
def close (st : AdapterState) (link : Fin 5) (urc1 urc2 : List URCMessages)
    (cmdResult : Except AtError Unit) : OpResult (Except Error Unit) :=
  let st1 := process_urc_messages urc1 st
  if st1.sockets link = SocketState.Closing ∨ st1.sockets link = SocketState.Open then
    ⟨Except.ok (), { st1 with sockets := setSlot st1.sockets link SocketState.Closed }, []⟩
  else
    let result : Except Error Unit :=
      match cmdResult with
      | Except.ok _ => Except.ok ()
      | Except.error e => Except.error (Error.CloseError e)
    let st2 := process_urc_messages urc2 st1
    let result2 : Except Error Unit :=
      if st2.sockets link ≠ SocketState.Closing ∧ result matches Except.ok _ then
        Except.error Error.UnconfirmedSocketState
      else result
    ⟨result2, { st2 with sockets := setSlot st2.sockets link SocketState.Closed }, [Cmd.CloseSocket link]⟩

/-- Model of `connect()` in `stack.rs`.  `urc1`/`urc2` are the URC messages pending at
the two reconciliation points, `passiveResult` the reply to the one-time
CIPRECVMODE command, `cmdResult` the reply to the CIPSTART command (wrapped
as `ConnectError` at this call site).  The address family only selects the
wire format of the command, which is out of scope. -/
def connect (st : AdapterState) (link : Fin 5) (urc1 urc2 : List URCMessages)
    (passiveResult cmdResult : Except AtError Unit) : OpResult (Except Error Unit) :=
  let st1 := process_urc_messages urc1 st
  if st1.sockets link = SocketState.Connected then
    ⟨Except.error Error.AlreadyConnected, st1, []⟩
  else
    match enable_passive_receiving_mode st1 passiveResult with
    | (Except.error e, st2, cmds) => ⟨Except.error e, st2, cmds⟩
    | (Except.ok _, st2, cmds) =>
      let st3 := { st2 with already_connected := false }
      let cmds2 := cmds ++ [Cmd.Connect link]
      let result : Except Error Unit :=
        match cmdResult with
        | Except.ok _ => Except.ok ()
        | Except.error e => Except.error (Error.ConnectError e)
      let st4 := process_urc_messages urc2 st3
      if st4.already_connected then
        ⟨Except.ok (), { st4 with sockets := setSlot st4.sockets link SocketState.Connected }, cmds2⟩
      else
        match result with
        | Except.error e => ⟨Except.error e, st4, cmds2⟩
        | Except.ok _ =>
          if st4.sockets link ≠ SocketState.Connected then
            ⟨Except.error Error.UnconfirmedSocketState, st4, cmds2⟩
          else
            ⟨Except.ok (),
             { st4 with data_available := fun j => if j = link then 0 else st4.data_available j },
             cmds2⟩

/-- Model of `assert_socket_connected` in `stack.rs`. -/
def assert_socket_connected (st : AdapterState) (link : Fin 5) : Except Error Unit :=
  if st.sockets link = SocketState.Closing then Except.error Error.ClosingSocket
  else if st.sockets link ≠ SocketState.Connected then Except.error Error.SocketUnconnected
  else Except.ok ()

/-- Model of `reduce_data_available` in `stack.rs`: clamps at zero when the retrieval
claims more than recorded, otherwise subtracts. -/
def reduce_data_available (st : AdapterState) (link : Fin 5) (length : Nat) : AdapterState :=
  if st.data_available link < length then
    { st with data_available := fun j => if j = link then 0 else st.data_available j }
  else
    { st with data_available := fun j => if j = link then st.data_available j - length else st.data_available j }

/-- Model of `Buffer::is_full` in `stack.rs`: an empty destination counts as full,
otherwise full once the cursor reached the destination length. -/
def bufferIsFull (cap position : Nat) : Bool :=
  if cap = 0 then true else decide (position ≥ cap)

/-- Model of `Buffer::buffer_space` in `stack.rs`. -/
def buffer_space (cap position : Nat) : Nat :=
  cap - position

/-- Model of `Buffer::get_next_length` in `stack.rs`: next pull size is the remaining
space capped at the receive chunk bound `RX_SIZE`. -/
def get_next_length (rxSize cap position : Nat) : Nat :=
  if buffer_space cap position > rxSize then rxSize else buffer_space cap position

/-- Model of `Buffer::append` in `stack.rs`: a chunk larger than the remaining space
fails with `ReceiveOverflow` and writes nothing; otherwise the chunk is
copied behind the cursor.  The destination is modelled as the list of bytes
written so far (`content`, whose length is the cursor) plus its capacity. -/
def bufferAppend (cap : Nat) (content chunk : List Nat) : Except Error (List Nat) :=
  if chunk.length > buffer_space cap content.length then Except.error Error.ReceiveOverflow
  else Except.ok (content ++ chunk)

/-- Module behaviour for one iteration of the receive loop: the reply to the
CIPRECV command and the URC messages pending at the reconciliation that
follows it (the returned data chunk arrives as a `DataReceived` message). -/
structure RecvStep where
  cmdResult : Except AtError Unit
  events : List URCMessages

/-- Result of a `receive()` call: the nb-style return value, the successor
state, the bytes written to the destination, and the commands issued. -/
structure RecvResult where
  result : NbResult Error Nat
  state : AdapterState
  written : List Nat
  cmds : List Cmd

/-- The `while self.data_available[link] > 0 && !buffer.is_full()` loop of
`receive()` in `stack.rs`.  One `RecvStep` is consumed per iteration; `none`
means the environment list ran out while the loop would have continued. -/
def receiveLoop (link : Fin 5) (cap rxSize : Nat) :
    AdapterState → List Nat → List Cmd → List RecvStep → Option RecvResult
  | st, content, log, [] =>
    if 0 < st.data_available link ∧ bufferIsFull cap content.length = false then none
    else some ⟨NbResult.ok content.length, st, content, log⟩
  | st, content, log, step :: rest =>
    if 0 < st.data_available link ∧ bufferIsFull cap content.length = false then
      let log1 := log ++ [Cmd.ReceiveData link (get_next_length rxSize cap content.length)]
      match step.cmdResult with
      | Except.error e => some ⟨NbResult.err (Error.ReceiveFailed e), st, content, log1⟩
      | Except.ok _ =>
        let st1 := process_urc_messages step.events st
        match st1.data with
        | none => some ⟨NbResult.err (Error.ReceiveFailed AtError.InvalidResponse), st1, content, log1⟩
        | some chunk =>
          let st2 := { st1 with data := none }
          let st3 := reduce_data_available st2 link chunk.length
          match bufferAppend cap content chunk with
          | Except.error e => some ⟨NbResult.err e, st3, content, log1⟩
          | Except.ok content1 => receiveLoop link cap rxSize st3 content1 log1 rest
    else some ⟨NbResult.ok content.length, st, content, log⟩

/-- Model of `receive()` in `stack.rs`: reconcile, would-block when nothing is
recorded for the slot, otherwise pull chunks until the destination is full
or the counter drops to zero. -/
def receive (st : AdapterState) (link : Fin 5) (cap rxSize : Nat)
    (urc0 : List URCMessages) (steps : List RecvStep) : Option RecvResult :=
  let st1 := process_urc_messages urc0 st
  if st1.data_available link = 0 then some ⟨NbResult.wouldBlock, st1, [], []⟩
  else receiveLoop link cap rxSize st1 [] [] steps

/-- Model of `buffer.chunks(n)` of Rust slices: consecutive chunks of `n` bytes, the
last one possibly shorter; defined for `n > 0` (Rust panics on `n = 0`).
The fuel is the list length; each step consumes at least one element. -/
def chunksOfAux (n : Nat) : Nat → List Nat → List (List Nat)
  | 0, _ => []
  | _ + 1, [] => []
  | fuel + 1, x :: xs => (x :: xs).take n :: chunksOfAux n fuel ((x :: xs).drop n)

/-- Model of `buffer.chunks(n)` for a whole list. -/
def chunksOf (n : Nat) (xs : List Nat) : List (List Nat) :=
  if n = 0 then [] else chunksOfAux n xs.length xs

/-- Module behaviour for one chunk of `send()`: reply to the CIPSEND prepare
command, reply to the payload transmission, whether `timer.start` succeeded,
and for each pass of the confirmation wait loop the URC messages drained and
the `timer.wait()` outcome. -/
structure ChunkEnv where
  prepareResult : Except AtError Unit
  cmdResult : Except AtError Unit
  startOk : Bool
  polls : List (List URCMessages × TimerWait)

/-- The `while self.send_confirmed.is_none()` confirmation loop of
`send_chunk` in `stack.rs`.  `none` means the poll environment ran out with
the confirmation still pending. -/
def waitConfirmation (dataLen : Nat) :
    AdapterState → List (List URCMessages × TimerWait) → Option (Except Error Unit × AdapterState)
  | _, [] => none
  | st, (events, tw) :: rest =>
    let st1 := process_urc_messages events st
    match st1.send_confirmed with
    | some false => some (Except.error (Error.SendFailed AtError.Error), st1)
    | some true =>
      match st1.recv_byte_count with
      | some count =>
        if count ≠ dataLen then some (Except.error Error.PartialSend, st1)
        else some (Except.ok (), st1)
      | none => some (Except.ok (), st1)
    | none =>
      match tw with
      | TimerWait.elapsed => some (Except.error (Error.SendFailed AtError.Timeout), st1)
      | TimerWait.failed => some (Except.error Error.TimerError, st1)
      | TimerWait.wouldBlock => waitConfirmation dataLen st1 rest

/-- Model of `send_chunk` in `stack.rs`: reset the transfer accounting, issue the
payload, start the timer, then race confirmation against the timeout. -/
def send_chunk (st : AdapterState) (chunk : List Nat) (env : ChunkEnv) :
    Option (Except Error Unit × AdapterState × List Cmd) :=
  let st1 := { st with send_confirmed := none, recv_byte_count := none }
  match env.cmdResult with
  | Except.error e => some (Except.error (Error.SendFailed e), st1, [Cmd.Transmission chunk])
  | Except.ok _ =>
    if env.startOk then
      match waitConfirmation chunk.length st1 env.polls with
      | none => none
      | some (r, st2) => some (r, st2, [Cmd.Transmission chunk])
    else some (Except.error Error.TimerError, st1, [Cmd.Transmission chunk])

/-- The `for chunk in buffer.chunks(TX_SIZE)` loop of `send()` in
`stack.rs`: prepare, then transmit each chunk; the first failing chunk
aborts the call. -/
def sendChunks (link : Fin 5) :
    AdapterState → List (List Nat) → List ChunkEnv → List Cmd →
    Option (Except Error Unit × AdapterState × List Cmd)
  | st, [], _, log => some (Except.ok (), st, log)
  | _, _ :: _, [], _ => none
  | st, chunk :: chunks, env :: envs, log =>
    let log1 := log ++ [Cmd.TransmissionPrepare link chunk.length]
    match env.prepareResult with
    | Except.error e => some (Except.error (Error.TransmissionStartFailed e), st, log1)
    | Except.ok _ =>
      match send_chunk st chunk env with
      | none => none
      | some (Except.error e, st1, cmds) => some (Except.error e, st1, log1 ++ cmds)
      | some (Except.ok _, st1, cmds) => sendChunks link st1 chunks envs (log1 ++ cmds)

/-- Model of `send()` in `stack.rs`: reconcile, require a connected slot, then drive
every `TX_SIZE`-bounded chunk through prepare/transmit; on full success the
whole payload length is returned. -/
def send (st : AdapterState) (link : Fin 5) (buffer : List Nat) (txSize : Nat)
    (urc0 : List URCMessages) (envs : List ChunkEnv) : Option (OpResult (Except Error Nat)) :=
  let st1 := process_urc_messages urc0 st
  match assert_socket_connected st1 link with
  | Except.error e => some ⟨Except.error e, st1, []⟩
  | Except.ok _ =>
    match sendChunks link st1 (chunksOf txSize buffer) envs [] with
    | none => none
    | some (Except.error e, st2, log) => some ⟨Except.error e, st2, log⟩
    | some (Except.ok _, st2, log) => some ⟨Except.ok buffer.length, st2, log⟩

/-- Model of `set_station_mode` in `adapter.rs`: sends the CWMODE command
unconditionally; its failure maps to `JoinError::ModeError`. -/
def set_station_mode (r : Except AtError Unit) : Except JoinError Unit × List Cmd :=
  match r with
  | Except.error e => (Except.error (JoinError.ModeError e), [Cmd.WifiMode])
  | Except.ok _ => (Except.ok (), [Cmd.WifiMode])

/-- Model of `connect_access_point` in `adapter.rs`: length validation of the
credentials, then the CWJAP command.  `ssid`/`key` are byte strings. -/
def connect_access_point (ssid key : List Nat) (r : Except AtError Unit) :
    Except JoinError Unit × List Cmd :=
  if ssid.length > 32 then (Except.error JoinError.InvalidSSDLength, [])
  else if key.length > 63 then (Except.error JoinError.InvalidPasswordLength, [])
  else
    match r with
    | Except.error e => (Except.error (JoinError.ConnectError e), [Cmd.AccessPointConnect])
    | Except.ok _ => (Except.ok (), [Cmd.AccessPointConnect])

/-- Model of `join` in `adapter.rs`: station mode first, then credentials, then one
reconciliation; returns the joined/IP flags as a snapshot. -/
def join (st : AdapterState) (ssid key : List Nat)
    (modeResult apResult : Except AtError Unit) (urc : List URCMessages) :
    OpResult (Except JoinError JoinState) :=
  match set_station_mode modeResult with
  | (Except.error e, cmds) => ⟨Except.error e, st, cmds⟩
  | (Except.ok _, cmds1) =>
    match connect_access_point ssid key apResult with
    | (Except.error e, cmds2) => ⟨Except.error e, st, cmds1 ++ cmds2⟩
    | (Except.ok _, cmds2) =>
      let st1 := process_urc_messages urc st
      ⟨Except.ok ⟨st1.joined, st1.ip_assigned⟩, st1, cmds1 ++ cmds2⟩

/-- Number of slots currently not `Closed`. -/
def nonClosedCount (s : Fin 5 → SocketState) : Nat :=
  (List.finRange 5).countP fun i => decide (s i ≠ SocketState.Closed)

/-- Is a command a CIPSEND prepare command? -/
def isPrepareCmd (c : Cmd) : Bool :=
  match c with
  | Cmd.TransmissionPrepare _ _ => true
  | _ => false

/-- Is a command a payload transmission? -/
def isTransmissionCmd (c : Cmd) : Bool :=
  match c with
  | Cmd.Transmission _ => true
  | _ => false

/-- A connected-slot adapter state used by the concrete send/receive
scenarios: slot 0 is `Connected`, both sticky mode flags set. -/
def connectedState : AdapterState :=
  { initState with
    sockets := setSlot initState.sockets 0 SocketState.Connected
    multi_connections_enabled := true
    passive_mode_enabled := true }

/-- State for the collision-recovery counterexample: slot 0 is `Open` with a
stale 7-byte backlog left over from an earlier remotely-closed connection
(nothing in `close()` or `open_socket` resets `data_available`). -/
def staleBacklogState : AdapterState :=
  { initState with
    sockets := setSlot initState.sockets 0 SocketState.Open
    multi_connections_enabled := true
    passive_mode_enabled := true
    data_available := fun j => if j = 0 then 7 else 0 }

/-- State for the receive witnesses: slot 0 `Connected` with 5 bytes
recorded as available. -/
def pendingDataState : AdapterState :=
  { connectedState with data_available := fun j => if j = 0 then 5 else 0 }

/-- The 600-byte payload of the chunked-send scenario. -/
def c8Payload : List Nat :=
  List.replicate 600 0

/-- Chunk environment where the module confirms the transmission on the
first poll. -/
def okChunkEnv : ChunkEnv :=
  ⟨Except.ok (), Except.ok (), true, [([URCMessages.SendConfirmation], TimerWait.wouldBlock)]⟩

/-- Chunk environment where the module signals a send failure on the first
poll. -/
def failChunkEnv : ChunkEnv :=
  ⟨Except.ok (), Except.ok (), true, [([URCMessages.SendFail], TimerWait.wouldBlock)]⟩

/-- The fully-confirmed 600-byte send run (3 chunks of at most 256 bytes). -/
def sendOkRun : Option (OpResult (Except Error Nat)) :=
  send connectedState 0 c8Payload 256 [] [okChunkEnv, okChunkEnv, okChunkEnv]

/-- The 600-byte send run whose second chunk is answered with `SendFail`. -/
def sendFailRun : Option (OpResult (Except Error Nat)) :=
  send connectedState 0 c8Payload 256 [] [okChunkEnv, failChunkEnv, okChunkEnv]

/-- The receive step of the overflow witness: the module hands back a 3-byte
chunk. -/
def overflowStep : RecvStep :=
  ⟨Except.ok (), [URCMessages.DataReceived [1, 2, 3]]⟩

theorem handle_single_urc_already_connected (st : AdapterState) (m : URCMessages) :
    (handle_single_urc st m).already_connected =
      (st.already_connected || decide (m = URCMessages.AlreadyConnectedSignal)) := by
  cases m <;> simp [handle_single_urc]

theorem process_urc_messages_already_connected (msgs : List URCMessages) :
    ∀ st : AdapterState,
      (process_urc_messages msgs st).already_connected =
        (st.already_connected || msgs.any fun m => decide (m = URCMessages.AlreadyConnectedSignal)) := by
  induction msgs with
  | nil => intro st; simp [process_urc_messages]
  | cons m ms ih =>
    intro st
    have h1 : process_urc_messages (m :: ms) st = process_urc_messages ms (handle_single_urc st m) := by
      simp [process_urc_messages]
    rw [h1, ih, handle_single_urc_already_connected]
    simp [Bool.or_assoc]

theorem receiveLoop_written_le (link : Fin 5) (cap rxSize : Nat) :
    ∀ (steps : List RecvStep) (st : AdapterState) (content : List Nat) (log : List Cmd)
      (r : RecvResult),
      content.length ≤ cap →
      receiveLoop link cap rxSize st content log steps = some r →
      r.written.length ≤ cap := by
  intro steps
  induction steps with
  | nil =>
    intro st content log r hlen h
    unfold receiveLoop at h
    split at h
    · exact absurd h (by simp)
    · cases h; exact hlen
  | cons step rest ih =>
    intro st content log r hlen h
    unfold receiveLoop at h
    split at h
    · split at h
      · cases h; exact hlen
      · dsimp only at h
        split at h
        · cases h; exact hlen
        · split at h
          · cases h; exact hlen
          next content1 happ =>
            unfold bufferAppend at happ
            split at happ
            · exact absurd happ (by simp)
            next hfit =>
              cases happ
              refine ih _ _ _ r ?_ h
              have hfit2 : (List.length _ > buffer_space cap content.length) = False :=
                eq_false hfit
              simp only [buffer_space, gt_iff_lt, Nat.not_lt, eq_iff_iff, iff_false,
                Nat.not_lt] at hfit2
              simp only [List.length_append]
              omega
    · cases h; exact hlen

theorem firstClosed_eq_none (s : Fin 5 → SocketState) :
    firstClosed s = none ↔ ∀ i : Fin 5, s i ≠ SocketState.Closed := by
  constructor
  · intro h i hcl
    have hd := (by decide : ∀ j : Fin 5, j = 0 ∨ j = 1 ∨ j = 2 ∨ j = 3 ∨ j = 4) i
    unfold firstClosed at h
    split_ifs at h with h0 h1 h2 h3 h4
    rcases hd with h' | h' | h' | h' | h' <;> subst h' <;> contradiction
  · intro hall
    unfold firstClosed
    rw [if_neg (hall 0), if_neg (hall 1), if_neg (hall 2), if_neg (hall 3), if_neg (hall 4)]

theorem firstClosed_some_closed (s : Fin 5 → SocketState) (i : Fin 5)
    (h : firstClosed s = some i) : s i = SocketState.Closed := by
  unfold firstClosed at h
  split_ifs at h with h0 h1 h2 h3 h4 <;> cases h
  · exact h0
  · exact h1
  · exact h2
  · exact h3
  · exact h4

theorem firstClosed_eq_some (s : Fin 5 → SocketState) (i : Fin 5)
    (h : s i = SocketState.Closed)
    (hmin : ∀ j : Fin 5, j < i → s j ≠ SocketState.Closed) :
    firstClosed s = some i := by
  have hd := (by decide : ∀ j : Fin 5, j = 0 ∨ j = 1 ∨ j = 2 ∨ j = 3 ∨ j = 4) i
  unfold firstClosed
  rcases hd with h' | h' | h' | h' | h' <;> subst h'
  · rw [if_pos h]
  · rw [if_neg (hmin 0 (by decide)), if_pos h]
  · rw [if_neg (hmin 0 (by decide)), if_neg (hmin 1 (by decide)), if_pos h]
  · rw [if_neg (hmin 0 (by decide)), if_neg (hmin 1 (by decide)),
      if_neg (hmin 2 (by decide)), if_pos h]
  · rw [if_neg (hmin 0 (by decide)), if_neg (hmin 1 (by decide)),
      if_neg (hmin 2 (by decide)), if_neg (hmin 3 (by decide)), if_pos h]

theorem open_socket_spec (st : AdapterState) :
    ((open_socket st).1 = Except.error Error.NoSocketAvailable ↔
      ∀ i : Fin 5, st.sockets i ≠ SocketState.Closed) ∧
    (∀ i : Fin 5, (open_socket st).1 = Except.ok i → st.sockets i = SocketState.Closed) ∧
    (∀ i : Fin 5, st.sockets i = SocketState.Closed →
      (∀ j : Fin 5, j < i → st.sockets j ≠ SocketState.Closed) →
      (open_socket st).1 = Except.ok i ∧
      (open_socket st).2.sockets = setSlot st.sockets i SocketState.Open) := by
  unfold open_socket
  cases hfc : firstClosed st.sockets with
  | none =>
    refine ⟨iff_of_true rfl ((firstClosed_eq_none st.sockets).mp hfc), ?_, ?_⟩
    · intro i h; cases h
    · intro i hi hmin
      rw [firstClosed_eq_some st.sockets i hi hmin] at hfc
      cases hfc
  | some l =>
    refine ⟨iff_of_false (by simp) ?_, ?_, ?_⟩
    · intro hall
      exact hall l (firstClosed_some_closed st.sockets l hfc)
    · intro i h
      cases h
      exact firstClosed_some_closed st.sockets l hfc
    · intro i hi hmin
      rw [firstClosed_eq_some st.sockets i hi hmin] at hfc
      cases hfc
      exact ⟨rfl, rfl⟩

/-- Claim C1: for every socket handle and every slot state, `close(handle)`
leaves the slot of that handle in state `Closed` when `close` returns — on
the early path (slot `Open` or `Closing`), on the success path, on the
command-error path, and on the "unconfirmed socket state" path alike. -/
theorem close_always_leaves_slot_closed (st : AdapterState) (link : Fin 5)
    (urc1 urc2 : List URCMessages) (cmdResult : Except AtError Unit) :
    (close st link urc1 urc2 cmdResult).state.sockets link = SocketState.Closed := by
  unfold close
  dsimp only
  split
  · simp [setSlot]
  · simp [setSlot]

/-- Claim C2 counterexample: with a fresh adapter every slot is `Closed`, so
per the claim `socket()` should mark slot 0 `Open` and return its handle;
but when the one-time enable-multiple-connections command fails, `socket()`
returns `EnablingMultiConnectionsFailed` — neither a handle nor the
no-socket-available error — and slot 0 stays `Closed`. -/
theorem socket_fails_without_exhaustion :
    (socket initState (Except.error AtError.Error)).result
        = Except.error (Error.EnablingMultiConnectionsFailed AtError.Error) ∧
    initState.sockets 0 = SocketState.Closed ∧
    (socket initState (Except.error AtError.Error)).state.sockets 0 = SocketState.Closed :=
  ⟨rfl, rfl, rfl⟩

/-- Claim C2 (amended): provided the one-time enable-multiple-connections
step succeeds (already enabled, or the command returns success), the number
of non-`Closed` slots never exceeds the pool size 5, `socket()` fails with
`NoSocketAvailable` exactly when all 5 slots are non-`Closed`, any returned
handle names a slot that was `Closed`, and the first `Closed` slot is marked
`Open` and returned. -/
theorem socket_allocation_spec (st : AdapterState) (cipmuxResult : Except AtError Unit)
    (henable : st.multi_connections_enabled = true ∨ cipmuxResult = Except.ok ()) :
    nonClosedCount st.sockets ≤ 5 ∧
    ((socket st cipmuxResult).result = Except.error Error.NoSocketAvailable ↔
      ∀ i : Fin 5, st.sockets i ≠ SocketState.Closed) ∧
    (∀ i : Fin 5, (socket st cipmuxResult).result = Except.ok i →
      st.sockets i = SocketState.Closed) ∧
    (∀ i : Fin 5, st.sockets i = SocketState.Closed →
      (∀ j : Fin 5, j < i → st.sockets j ≠ SocketState.Closed) →
      (socket st cipmuxResult).result = Except.ok i ∧
      (socket st cipmuxResult).state.sockets = setSlot st.sockets i SocketState.Open) := by
  have hcount : nonClosedCount st.sockets ≤ 5 := by
    have h1 := List.countP_le_length
      (fun i => decide (st.sockets i ≠ SocketState.Closed)) (l := List.finRange 5)
    simpa [nonClosedCount] using h1
  have henab : ∃ st1 : AdapterState,
      enable_multiple_connections st cipmuxResult = (Except.ok (), st1, []) ∧
        st1.sockets = st.sockets ∨
      enable_multiple_connections st cipmuxResult
          = (Except.ok (), st1, [Cmd.SetMultipleConnections]) ∧ st1.sockets = st.sockets := by
    rcases henable with hm | hr
    · refine ⟨st, Or.inl ⟨?_, rfl⟩⟩
      unfold enable_multiple_connections
      rw [if_pos hm]
    · by_cases hm : st.multi_connections_enabled = true
      · refine ⟨st, Or.inl ⟨?_, rfl⟩⟩
        unfold enable_multiple_connections
        rw [if_pos hm]
      · refine ⟨{ st with multi_connections_enabled := true }, Or.inr ⟨?_, rfl⟩⟩
        unfold enable_multiple_connections
        rw [if_neg hm, hr]
  obtain ⟨st1, henab⟩ := henab
  have hred : (socket st cipmuxResult).result = (open_socket st1).1 ∧
      (socket st cipmuxResult).state = (open_socket st1).2 := by
    rcases henab with ⟨he, _⟩ | ⟨he, _⟩ <;>
      · unfold socket
        rw [he]
        exact ⟨rfl, rfl⟩
  have hsk : st1.sockets = st.sockets := by
    rcases henab with ⟨_, h⟩ | ⟨_, h⟩ <;> exact h
  have hspec := open_socket_spec st1
  rw [hsk] at hspec
  refine ⟨hcount, ?_, ?_, ?_⟩
  · rw [hred.1]
    exact hspec.1
  · intro i h
    rw [hred.1] at h
    exact hspec.2.1 i h
  · intro i hi hmin
    have h3 := hspec.2.2 i hi hmin
    refine ⟨by rw [hred.1]; exact h3.1, ?_⟩
    rw [hred.2]
    exact h3.2

/-- Claim C2 witness: on a fresh adapter with the enabling command
succeeding, `socket()` hands out slot 0 and marks it `Open`. -/
theorem socket_allocation_spec_witness :
    (socket initState (Except.ok ())).result = Except.ok 0 ∧
    (socket initState (Except.ok ())).state.sockets = setSlot initState.sockets 0 SocketState.Open :=
  (socket_allocation_spec initState (Except.ok ()) (Or.inr rfl)).2.2.2 0 rfl
    (fun j hj => absurd hj ((by decide : ∀ j : Fin 5, ¬ j < 0) j))

theorem collision_flag_true_of_mem (stx : AdapterState) (urc2 : List URCMessages)
    (hfalse : stx.already_connected = false)
    (hcol : URCMessages.AlreadyConnectedSignal ∈ urc2) :
    (process_urc_messages urc2 stx).already_connected = true := by
  rw [process_urc_messages_already_connected, hfalse]
  simp only [Bool.false_or]
  exact List.any_eq_true.mpr ⟨_, hcol, by simp⟩

theorem collision_flag_false_of_not_mem (stx : AdapterState) (urc2 : List URCMessages)
    (hfalse : stx.already_connected = false)
    (hno : URCMessages.AlreadyConnectedSignal ∉ urc2) :
    (process_urc_messages urc2 stx).already_connected = false := by
  rw [process_urc_messages_already_connected, hfalse]
  simp only [Bool.false_or]
  rw [List.any_eq_false]
  intro m hm
  simp only [decide_eq_true_eq]
  intro he
  exact hno (he ▸ hm)

/-- Claim C3: whenever the slot is not already `Connected` after the first
reconciliation (and the one-time passive-mode step succeeds), and the
module's "already connected" collision report is among the messages drained
by the post-command reconciliation, `connect` forces the slot to `Connected`
and returns success — for every result of the connect command itself. -/
theorem connect_collision_recovery (st : AdapterState) (link : Fin 5)
    (urc1 urc2 : List URCMessages) (passiveResult cmdResult : Except AtError Unit)
    (hnc : (process_urc_messages urc1 st).sockets link ≠ SocketState.Connected)
    (hp : (process_urc_messages urc1 st).passive_mode_enabled = true ∨
      passiveResult = Except.ok ())
    (hcol : URCMessages.AlreadyConnectedSignal ∈ urc2) :
    (connect st link urc1 urc2 passiveResult cmdResult).result = Except.ok () ∧
    (connect st link urc1 urc2 passiveResult cmdResult).state.sockets link
        = SocketState.Connected := by
  unfold connect
  dsimp only
  rw [if_neg hnc]
  have he : enable_passive_receiving_mode (process_urc_messages urc1 st) passiveResult
        = (Except.ok (), process_urc_messages urc1 st, []) ∨
      enable_passive_receiving_mode (process_urc_messages urc1 st) passiveResult
        = (Except.ok (), { process_urc_messages urc1 st with passive_mode_enabled := true },
           [Cmd.SetSocketReceivingMode]) := by
    rcases hp with hp | hp
    · left
      unfold enable_passive_receiving_mode
      rw [if_pos hp]
    · by_cases hpe : (process_urc_messages urc1 st).passive_mode_enabled = true
      · left
        unfold enable_passive_receiving_mode
        rw [if_pos hpe]
      · right
        unfold enable_passive_receiving_mode
        rw [if_neg hpe, hp]
  rcases he with he | he <;>
    · rw [he]
      dsimp only
      rw [if_pos (collision_flag_true_of_mem _ urc2 rfl hcol)]
      exact ⟨rfl, by simp [setSlot]⟩

/-- Claim C3 witness: a fresh adapter, empty first reconciliation, and an
"already connected" report in the second reconciliation yield success and a
`Connected` slot even though the connect command itself is irrelevant. -/
theorem connect_collision_recovery_witness :
    (connect initState 0 [] [URCMessages.AlreadyConnectedSignal]
        (Except.ok ()) (Except.ok ())).result = Except.ok () ∧
    (connect initState 0 [] [URCMessages.AlreadyConnectedSignal]
        (Except.ok ()) (Except.ok ())).state.sockets 0 = SocketState.Connected :=
  connect_collision_recovery initState 0 [] [URCMessages.AlreadyConnectedSignal]
    (Except.ok ()) (Except.ok ()) (by decide) (Or.inr rfl) (by decide)

/-- Claim C4: one reconciliation step applied to a pending
bytes-received event carrying a link id and a byte count `n` increases that
slot's `bytes_available` counter by `n` and leaves every other slot's
counter unchanged. -/
theorem data_available_urc_increment (st : AdapterState) (link : Fin 5) (n : Nat) :
    (handle_single_urc st (URCMessages.DataAvailable link n)).data_available =
      fun j => if j = link then st.data_available j + n else st.data_available j :=
  rfl

/-- Claim C5 counterexample: `join` with a 33-byte ssid does return the
invalid-ssid-length error, but the station-mode command has already been
issued before the validation runs, so "no command is sent on the failing
call" is false. -/
theorem join_sends_command_before_validation :
    (join initState (List.replicate 33 0) [] (Except.ok ()) (Except.ok ()) []).result
        = Except.error JoinError.InvalidSSDLength ∧
    (join initState (List.replicate 33 0) [] (Except.ok ()) (Except.ok ()) []).cmds
        = [Cmd.WifiMode] ∧
    [Cmd.WifiMode] ≠ ([] : List Cmd) :=
  ⟨rfl, rfl, by simp⟩

/-- Claim C5 (amended): for every ssid longer than 32 bytes or password
longer than 63 bytes, if the station-mode command succeeds, `join` returns
the corresponding invalid-length error (ssid checked first) and the
credentials command is never issued; the only command issued on the failing
call is the station-mode command, which precedes the validation. -/
theorem join_validates_before_credentials (st : AdapterState) (ssid key : List Nat)
    (apResult : Except AtError Unit) (urc : List URCMessages)
    (hlen : 32 < ssid.length ∨ 63 < key.length) :
    (join st ssid key (Except.ok ()) apResult urc).result
        = Except.error
            (if 32 < ssid.length then JoinError.InvalidSSDLength
             else JoinError.InvalidPasswordLength) ∧
    (join st ssid key (Except.ok ()) apResult urc).cmds = [Cmd.WifiMode] := by
  unfold join set_station_mode connect_access_point
  dsimp only
  by_cases hs : ssid.length > 32
  · rw [if_pos hs, if_pos hs]
    exact ⟨rfl, rfl⟩
  · have hk : 63 < key.length := hlen.resolve_left hs
    rw [if_neg hs, if_neg hs, if_pos hk]
    exact ⟨rfl, rfl⟩

/-- Claim C5 witness: concrete 33-byte ssid instance of the amended claim. -/
theorem join_validates_before_credentials_witness :
    (join initState (List.replicate 33 0) [] (Except.ok ()) (Except.ok ()) []).result
        = Except.error
            (if 32 < (List.replicate 33 (0 : Nat)).length then JoinError.InvalidSSDLength
             else JoinError.InvalidPasswordLength) ∧
    (join initState (List.replicate 33 0) [] (Except.ok ()) (Except.ok ()) []).cmds
        = [Cmd.WifiMode] :=
  join_validates_before_credentials initState (List.replicate 33 0) [] (Except.ok ()) []
    (Or.inl (by simp))

/-- Claim C6 counterexample: a `connect` that succeeds through the
already-connected collision-recovery path returns success while the slot's
`bytes_available` counter keeps its stale value 7 — the reset to zero is
skipped on that success path. -/
theorem connect_collision_keeps_backlog :
    (connect staleBacklogState 0 [] [URCMessages.AlreadyConnectedSignal]
        (Except.ok ()) (Except.ok ())).result = Except.ok () ∧
    (connect staleBacklogState 0 [] [URCMessages.AlreadyConnectedSignal]
        (Except.ok ()) (Except.ok ())).state.data_available 0 = 7 ∧
    (7 : Nat) ≠ 0 :=
  ⟨rfl, rfl, by decide⟩

/-- Claim C6 (amended): on every success path of `connect` other than the
already-connected collision-recovery path — that is, whenever no collision
report is drained by the post-command reconciliation — the slot's
`bytes_available` counter is zero when `connect` returns; the collision path
leaves the counter unchanged instead. -/
theorem connect_success_resets_backlog (st : AdapterState) (link : Fin 5)
    (urc1 urc2 : List URCMessages) (passiveResult cmdResult : Except AtError Unit)
    (hno : URCMessages.AlreadyConnectedSignal ∉ urc2)
    (hok : (connect st link urc1 urc2 passiveResult cmdResult).result = Except.ok ()) :
    (connect st link urc1 urc2 passiveResult cmdResult).state.data_available link = 0 := by
  unfold connect at hok ⊢
  dsimp only at hok ⊢
  by_cases h1 : (process_urc_messages urc1 st).sockets link = SocketState.Connected
  · rw [if_pos h1] at hok
    exact absurd hok (by simp)
  · rw [if_neg h1] at hok ⊢
    rcases henv : enable_passive_receiving_mode (process_urc_messages urc1 st) passiveResult
      with ⟨r, st2, cmds⟩
    rw [henv] at hok
    cases r with
    | error e => exact absurd hok (by simp)
    | ok _ =>
      dsimp only at hok ⊢
      have hflag : (process_urc_messages urc2
          { st2 with already_connected := false }).already_connected = false :=
        collision_flag_false_of_not_mem _ urc2 rfl hno
      rw [if_neg (by rw [hflag]; exact Bool.false_ne_true)] at hok ⊢
      cases cmdResult with
      | error e => exact absurd hok (by simp)
      | ok _ =>
        dsimp only at hok ⊢
        by_cases h2 : (process_urc_messages urc2
            { st2 with already_connected := false }).sockets link ≠ SocketState.Connected
        · rw [if_pos h2] at hok
          exact absurd hok (by simp)
        · rw [if_neg h2] at hok ⊢
          simp

/-- Claim C6 witness: a normal (non-collision) successful connect on the
stale-backlog state does reset the counter to zero. -/
theorem connect_success_resets_backlog_witness :
    URCMessages.AlreadyConnectedSignal ∉ [URCMessages.SocketConnected 0] ∧
    (connect staleBacklogState 0 [] [URCMessages.SocketConnected 0]
        (Except.ok ()) (Except.ok ())).state.data_available 0 = 0 :=
  ⟨by decide,
   connect_success_resets_backlog staleBacklogState 0 [] [URCMessages.SocketConnected 0]
     (Except.ok ()) (Except.ok ()) (by decide) rfl⟩

/-- Claim C7: `receive` never writes past the destination's capacity — every
terminating run writes at most `cap` bytes — and whenever the module hands
back a chunk larger than the remaining destination space, the loop stops
with the `ReceiveOverflow` error and none of that chunk's bytes are written
(the destination content is exactly what it was before that chunk). -/
theorem receive_respects_capacity (link : Fin 5) (cap rxSize : Nat) :
    (∀ (st : AdapterState) (urc0 : List URCMessages) (steps : List RecvStep) (r : RecvResult),
      receive st link cap rxSize urc0 steps = some r → r.written.length ≤ cap) ∧
    (∀ (st : AdapterState) (content : List Nat) (log : List Cmd) (step : RecvStep)
      (rest : List RecvStep) (chunk : List Nat),
      0 < st.data_available link → bufferIsFull cap content.length = false →
      step.cmdResult = Except.ok () →
      (process_urc_messages step.events st).data = some chunk →
      buffer_space cap content.length < chunk.length →
      ∃ r : RecvResult,
        receiveLoop link cap rxSize st content log (step :: rest) = some r ∧
        r.result = NbResult.err Error.ReceiveOverflow ∧ r.written = content) := by
  constructor
  · intro st urc0 steps r h
    unfold receive at h
    dsimp only at h
    split at h
    · cases h
      exact Nat.zero_le cap
    · exact receiveLoop_written_le link cap rxSize steps _ [] [] r (Nat.zero_le cap) h
  · intro st content log step rest chunk hpos hfull hcmd hdata hover
    unfold receiveLoop
    rw [if_pos ⟨hpos, hfull⟩, hcmd]
    dsimp only
    rw [hdata]
    dsimp only
    unfold bufferAppend
    rw [if_pos hover]
    exact ⟨_, rfl, rfl, rfl⟩

/-- Claim C7 witness: with 5 bytes recorded, a 2-byte destination and a
3-byte chunk coming back, the loop fails with `ReceiveOverflow` and writes
nothing. -/
theorem receive_respects_capacity_witness :
    ∃ r : RecvResult,
      receiveLoop 0 2 4 pendingDataState [] [] [overflowStep] = some r ∧
      r.result = NbResult.err Error.ReceiveOverflow ∧ r.written = [] :=
  (receive_respects_capacity 0 2 4).2 pendingDataState [] [] overflowStep [] [1, 2, 3]
    (by decide) (by decide) rfl rfl (by decide)

set_option maxRecDepth 100000 in
/-- Claim C8: sending a 600-byte payload on a `Connected` socket with a
256-byte chunk bound issues exactly 3 prepare/transmit cycles and returns
the total payload length 600 when every chunk is confirmed; when the second
chunk's confirmation event is a send failure, `send` fails with the
send-failure error and the third chunk's prepare/transmit commands are never
issued (2 cycles only). -/
theorem send_600_byte_chunking :
    (sendOkRun.map fun r => r.result) = some (Except.ok 600) ∧
    (sendOkRun.map fun r => r.cmds.countP isPrepareCmd) = some 3 ∧
    (sendOkRun.map fun r => r.cmds.countP isTransmissionCmd) = some 3 ∧
    (sendFailRun.map fun r => r.result)
        = some (Except.error (Error.SendFailed AtError.Error)) ∧
    (sendFailRun.map fun r => r.cmds.countP isPrepareCmd) = some 2 ∧
    (sendFailRun.map fun r => r.cmds.countP isTransmissionCmd) = some 2 := by
  refine ⟨?_, ?_, ?_, ?_, ?_, ?_⟩ <;> rfl

/-- Claim C9: reducing a slot's `bytes_available` by a retrieval of `n`
bytes saturates at zero — the counter becomes `bytes_available - n` when
`n ≤ bytes_available` and `0` otherwise — and retrieving exactly the
recorded count leaves the counter at zero. -/
theorem reduce_data_available_saturates (st : AdapterState) (link : Fin 5) (n : Nat) :
    (reduce_data_available st link n).data_available link =
      (if n ≤ st.data_available link then st.data_available link - n else 0) ∧
    (reduce_data_available st link (st.data_available link)).data_available link = 0 := by
  constructor
  · unfold reduce_data_available
    by_cases h : st.data_available link < n
    · rw [if_pos h]
      dsimp only
      rw [if_pos rfl, if_neg (by omega)]
    · rw [if_neg h]
      dsimp only
      rw [if_pos rfl, if_pos (by omega)]
  · unfold reduce_data_available
    rw [if_neg (lt_irrefl _)]
    dsimp only
    rw [if_pos rfl]
    exact Nat.sub_self _

/-- Claim C10: a `receive` into a zero-length destination while the slot has
bytes recorded returns success with 0 bytes written and issues no
receive-data command (the empty destination counts as already full). -/
theorem receive_empty_destination (st : AdapterState) (link : Fin 5) (rxSize : Nat)
    (urc0 : List URCMessages) (steps : List RecvStep)
    (hdata : 0 < (process_urc_messages urc0 st).data_available link) :
    receive st link 0 rxSize urc0 steps =
      some ⟨NbResult.ok 0, process_urc_messages urc0 st, [], []⟩ := by
  unfold receive
  dsimp only
  rw [if_neg (by omega)]
  cases steps with
  | nil =>
    unfold receiveLoop
    rw [if_neg (by simp [bufferIsFull])]
    rfl
  | cons s rest =>
    unfold receiveLoop
    rw [if_neg (by simp [bufferIsFull])]
    rfl

/-- Claim C10 witness: slot 0 has 5 bytes recorded and the destination holds
0 bytes; `receive` returns 0 and sends nothing. -/
theorem receive_empty_destination_witness :
    0 < (process_urc_messages [] pendingDataState).data_available 0 ∧
    receive pendingDataState 0 0 4 [] [] =
      some ⟨NbResult.ok 0, process_urc_messages [] pendingDataState, [], []⟩ :=
  ⟨by decide, receive_empty_destination pendingDataState 0 4 [] [] (by decide)⟩

end EspAtNal
